import Mathlib

/-!
Shallow embedding of `src/ears/sound.rs` from the `ears` repository: the
`Sound` struct (one OpenAL source bound to one shared `SoundData` buffer)
and its `AudioController` operations.

The OpenAL backend is modelled as an explicit state (`ALState`): a per-source
parameter store, a pending-error flag (read by `al::openal_has_error`), a
liveness map for generated source handles and a fresh-id counter.  Scalar
`f32` parameters are carried as `Rat` (the layer only transports values, it
never computes with them, so any carrier with decidable equality is faithful);
`i32`/`i8` values are carried as `Int` with explicit wrap-around casts.

Every operation is translated directly from the Rust source and returns an
`OpResult`: the returned value, the backend state after the call, and the
chronological list of observable events (context-validity query, backend
calls by ffi name, backend-error query, logged diagnostics).  A Rust
`unreachable!()` (a panic) is modelled by an `Option` result being `none`.
-/

namespace Ears

/-- Standard OpenAL source-state constants (ffi): AL_INITIAL = 0x1011,
AL_PLAYING = 0x1012, AL_PAUSED = 0x1013, AL_STOPPED = 0x1014. -/
def AL_INITIAL : Int := 4113

/-- AL_PLAYING = 0x1012. -/
def AL_PLAYING : Int := 4114

/-- AL_PAUSED = 0x1013. -/
def AL_PAUSED : Int := 4115

/-- AL_STOPPED = 0x1014. -/
def AL_STOPPED : Int := 4116

/-- ffi::ALC_TRUE (an i8 in the binding). -/
def ALC_TRUE : Int := 1

/-- ffi::ALC_FALSE (an i8 in the binding). -/
def ALC_FALSE : Int := 0

/-- Wrap an integer to the range of i32 (the `as i32` cast). -/
def i32cast (n : Int) : Int := (n + 2 ^ 31) % 2 ^ 32 - 2 ^ 31

/-- Wrap an integer to the range of i8 (the `as i8` cast). -/
def i8cast (n : Int) : Int := (n + 2 ^ 7) % 2 ^ 8 - 2 ^ 7

/-- The `State` enum from `states.rs`, as matched on by `sound.rs`. -/
inductive State
  | Initial
  | Playing
  | Paused
  | Stopped
  deriving DecidableEq

/-- A three-dimensional `[f32, ..3]` vector. -/
structure V3 where
  x : Rat
  y : Rat
  z : Rat
  deriving DecidableEq

/-- The zero vector `[0., 0., 0.]`. -/
def V3.zero : V3 := ⟨0, 0, 0⟩

/-- Per-source parameter store of the modelled OpenAL backend: one slot for
each AL parameter that `sound.rs` reads or writes. -/
structure ALSource where
  gain : Rat
  minGain : Rat
  maxGain : Rat
  pitch : Rat
  maxDistance : Rat
  refDistance : Rat
  rolloff : Rat
  looping : Int
  srcRelative : Int
  buffer : Int
  sourceState : Int
  position : V3
  direction : V3
  deriving DecidableEq

/-- Global modelled backend state: the parameter store of every source id, a
liveness map for generated handles, the next fresh source id, and the pending
backend error (if any) that `al::openal_has_error` reports. -/
structure ALState where
  sources : Nat → ALSource
  live : Nat → Bool
  nextId : Nat
  err : Option String

/-- Observable events of one operation, in chronological order. -/
inductive Event
  | checkContext
  | alCall (name : String)
  | getError
  | log (msg : String)
  deriving DecidableEq

/-- Result of one operation: returned value, backend state afterwards, and the
chronological event trace. -/
structure OpResult (α : Type) where
  res : α
  st : ALState
  events : List Event

/-- Named float-parameter slots passed to alSourcef / alGetSourcef. -/
inductive FParam
  | AL_GAIN
  | AL_MIN_GAIN
  | AL_MAX_GAIN
  | AL_PITCH
  | AL_MAX_DISTANCE
  | AL_REFERENCE_DISTANCE
  | AL_ROLLOFF_FACTOR
  deriving DecidableEq

/-- Named integer-parameter slots passed to alSourcei / alGetSourcei. -/
inductive IParam
  | AL_LOOPING
  | AL_SOURCE_RELATIVE
  | AL_BUFFER
  | AL_SOURCE_STATE
  deriving DecidableEq

/-- Named vector-parameter slots passed to alSourcefv / alGetSourcefv. -/
inductive VParam
  | AL_POSITION
  | AL_DIRECTION
  deriving DecidableEq

/-- Update one source of the backend store, leaving every other source, the
liveness map, the id counter and the error flag unchanged. -/
def setSrc (st : ALState) (sid : Nat) (f : ALSource → ALSource) : ALState :=
  { st with sources := fun i => if i = sid then f (st.sources sid) else st.sources i }

/-- ffi::alGenSources(1, &mut id): allocate a fresh live source handle. -/
def alGenSources (st : ALState) : Nat × ALState :=
  (st.nextId,
    { st with
      nextId := st.nextId + 1,
      live := fun i => if i = st.nextId then true else st.live i })

/-- ffi::alDeleteSources(1, &mut id): release a source handle. -/
def alDeleteSources (st : ALState) (sid : Nat) : ALState :=
  { st with live := fun i => if i = sid then false else st.live i }

/-- ffi::alSourcef: store a float parameter of a source. -/
def alSourcef (st : ALState) (sid : Nat) (p : FParam) (v : Rat) : ALState :=
  setSrc st sid (fun src =>
    match p with
    | .AL_GAIN => { src with gain := v }
    | .AL_MIN_GAIN => { src with minGain := v }
    | .AL_MAX_GAIN => { src with maxGain := v }
    | .AL_PITCH => { src with pitch := v }
    | .AL_MAX_DISTANCE => { src with maxDistance := v }
    | .AL_REFERENCE_DISTANCE => { src with refDistance := v }
    | .AL_ROLLOFF_FACTOR => { src with rolloff := v })

/-- ffi::alGetSourcef: read a float parameter of a source. -/
def alGetSourcef (st : ALState) (sid : Nat) (p : FParam) : Rat :=
  match p with
  | .AL_GAIN => (st.sources sid).gain
  | .AL_MIN_GAIN => (st.sources sid).minGain
  | .AL_MAX_GAIN => (st.sources sid).maxGain
  | .AL_PITCH => (st.sources sid).pitch
  | .AL_MAX_DISTANCE => (st.sources sid).maxDistance
  | .AL_REFERENCE_DISTANCE => (st.sources sid).refDistance
  | .AL_ROLLOFF_FACTOR => (st.sources sid).rolloff

/-- ffi::alSourcei: store an integer parameter of a source. -/
def alSourcei (st : ALState) (sid : Nat) (p : IParam) (v : Int) : ALState :=
  setSrc st sid (fun src =>
    match p with
    | .AL_LOOPING => { src with looping := v }
    | .AL_SOURCE_RELATIVE => { src with srcRelative := v }
    | .AL_BUFFER => { src with buffer := v }
    | .AL_SOURCE_STATE => { src with sourceState := v })

/-- ffi::alGetSourcei: read an integer parameter of a source. -/
def alGetSourcei (st : ALState) (sid : Nat) (p : IParam) : Int :=
  match p with
  | .AL_LOOPING => (st.sources sid).looping
  | .AL_SOURCE_RELATIVE => (st.sources sid).srcRelative
  | .AL_BUFFER => (st.sources sid).buffer
  | .AL_SOURCE_STATE => (st.sources sid).sourceState

/-- ffi::alSourcefv: store a vector parameter of a source. -/
def alSourcefv (st : ALState) (sid : Nat) (p : VParam) (v : V3) : ALState :=
  setSrc st sid (fun src =>
    match p with
    | .AL_POSITION => { src with position := v }
    | .AL_DIRECTION => { src with direction := v })

/-- ffi::alGetSourcefv: read a vector parameter of a source. -/
def alGetSourcefv (st : ALState) (sid : Nat) (p : VParam) : V3 :=
  match p with
  | .AL_POSITION => (st.sources sid).position
  | .AL_DIRECTION => (st.sources sid).direction

/-- Modelled from the spec: the backend transport call ffi::alSourcePlay
(`openal` module, not under src): "transitions backend state toward
Playing (resumes if Paused)". -/
def alSourcePlay (st : ALState) (sid : Nat) : ALState :=
  setSrc st sid (fun src => { src with sourceState := AL_PLAYING })

/-- Modelled from the spec: ffi::alSourcePause (`openal` module, not under
src): "transitions toward Paused; no-op if not Playing". -/
def alSourcePause (st : ALState) (sid : Nat) : ALState :=
  setSrc st sid (fun src =>
    if src.sourceState = AL_PLAYING then { src with sourceState := AL_PAUSED } else src)

/-- Modelled from the spec: ffi::alSourceStop (`openal` module, not under
src): "transitions toward Stopped; idempotent". -/
def alSourceStop (st : ALState) (sid : Nat) : ALState :=
  setSrc st sid (fun src => { src with sourceState := AL_STOPPED })

/-- Modelled from the spec: the backend-error oracle al::openal_has_error
(`openal` module, not under src): "BackendError (a backend call reported an
error code after execution)" — reports the pending error, if any, and clears
it (alGetError semantics). -/
def openal_has_error (st : ALState) : Option String × ALState :=
  (st.err, { st with err := none })

/-- Modelled from the spec: the external Buffer collaborator (`sound_data`
module, not under src): "exposes its backend-buffer identifier for binding".
The identifier is a u32. -/
structure SoundData where
  bufferId : Nat
  deriving DecidableEq

/-- SoundData::get_buffer: the backend-buffer identifier of the buffer. -/
def SoundData.get_buffer (sd : SoundData) : Nat := sd.bufferId

/-- The Sound struct of `sound.rs`: the internal OpenAL source identifier and
the shared SoundData reference. -/
structure Sound where
  al_source : Nat
  sound_data : SoundData
  deriving DecidableEq

/-- The result of OpenAlData::check_al_context (context oracle, an external
collaborator): Ok when the global context is valid, Err with a diagnostic
otherwise.  Each operation queries it; the query is the `checkContext`
event. -/
abbrev Ctx := Except String Unit

/-- Sound::new_with_data: check the context, alGenSources, bind the buffer
with alSourcei(AL_BUFFER, get_buffer() as i32), then check
openal_has_error; None on invalid context or backend error. -/
def Sound.new_with_data (ctx : Ctx) (sound_data : SoundData) (st : ALState) :
    OpResult (Option Sound) :=
  match ctx with
  | .error err => ⟨none, st, [.checkContext, .log err]⟩
  | .ok _ =>
    let p := alGenSources st
    let source_id := p.1
    let st2 := alSourcei p.2 source_id .AL_BUFFER (i32cast (Int.ofNat sound_data.get_buffer))
    match openal_has_error st2 with
    | (some err, st3) =>
      ⟨none, st3,
        [.checkContext, .alCall "alGenSources", .alCall "alSourcei", .getError, .log err]⟩
    | (none, st3) =>
      ⟨some ⟨source_id, sound_data⟩, st3,
        [.checkContext, .alCall "alGenSources", .alCall "alSourcei", .getError]⟩

/-- Sound::new: check the context, load a SoundData from the path (the
external SoundData::new loader is passed in as `dec`, modelled from the
spec: fromPath(path) returns an optional Buffer), then delegate to
Sound::new_with_data. -/
def Sound.new (ctx : Ctx) (dec : String → Option SoundData) (path : String)
    (st : ALState) : OpResult (Option Sound) :=
  match ctx with
  | .error err => ⟨none, st, [.checkContext, .log err]⟩
  | .ok _ =>
    match dec path with
    | none => ⟨none, st, [.checkContext]⟩
    | some s_data =>
      let r := Sound.new_with_data ctx s_data st
      ⟨r.res, r.st, .checkContext :: r.events⟩

/-- Sound::get_datas: return the shared SoundData reference (no context
check, no backend call). -/
def Sound.get_datas (s : Sound) (st : ALState) : OpResult SoundData :=
  ⟨s.sound_data, st, []⟩

/-- AudioController::play for Sound: check context, alSourcePlay, then check
openal_has_error and log it if present. -/
def Sound.play (ctx : Ctx) (s : Sound) (st : ALState) : OpResult Unit :=
  match ctx with
  | .error err => ⟨(), st, [.checkContext, .log err]⟩
  | .ok _ =>
    let st1 := alSourcePlay st s.al_source
    match openal_has_error st1 with
    | (none, st2) => ⟨(), st2, [.checkContext, .alCall "alSourcePlay", .getError]⟩
    | (some err, st2) =>
      ⟨(), st2, [.checkContext, .alCall "alSourcePlay", .getError, .log err]⟩

/-- AudioController::pause for Sound: check context, alSourcePause (no
backend-error check). -/
def Sound.pause (ctx : Ctx) (s : Sound) (st : ALState) : OpResult Unit :=
  match ctx with
  | .error err => ⟨(), st, [.checkContext, .log err]⟩
  | .ok _ => ⟨(), alSourcePause st s.al_source, [.checkContext, .alCall "alSourcePause"]⟩

/-- AudioController::stop for Sound: check context, alSourceStop (no
backend-error check). -/
def Sound.stop (ctx : Ctx) (s : Sound) (st : ALState) : OpResult Unit :=
  match ctx with
  | .error err => ⟨(), st, [.checkContext, .log err]⟩
  | .ok _ => ⟨(), alSourceStop st s.al_source, [.checkContext, .alCall "alSourceStop"]⟩

/-- AudioController::get_state for Sound: Initial as fallback on invalid
context; otherwise alGetSourcei(AL_SOURCE_STATE) and a match whose final arm
is `unreachable!()`, modelled as `none` (a panic). -/
def Sound.get_state (ctx : Ctx) (s : Sound) (st : ALState) : OpResult (Option State) :=
  match ctx with
  | .error err => ⟨some .Initial, st, [.checkContext, .log err]⟩
  | .ok _ =>
    let state := alGetSourcei st s.al_source .AL_SOURCE_STATE
    let r : Option State :=
      if state = AL_INITIAL then some .Initial
      else if state = AL_PLAYING then some .Playing
      else if state = AL_PAUSED then some .Paused
      else if state = AL_STOPPED then some .Stopped
      else none
    ⟨r, st, [.checkContext, .alCall "alGetSourcei"]⟩

/-- AudioController::is_playing for Sound: match on get_state, true exactly
on Playing (a panic of get_state propagates). -/
def Sound.is_playing (ctx : Ctx) (s : Sound) (st : ALState) : OpResult (Option Bool) :=
  let r := Sound.get_state ctx s st
  ⟨r.res.map (fun st0 => match st0 with | .Playing => true | _ => false), r.st, r.events⟩

/-- AudioController::set_volume for Sound: alSourcef(AL_GAIN). -/
def Sound.set_volume (ctx : Ctx) (s : Sound) (st : ALState) (volume : Rat) : OpResult Unit :=
  match ctx with
  | .error err => ⟨(), st, [.checkContext, .log err]⟩
  | .ok _ =>
    ⟨(), alSourcef st s.al_source .AL_GAIN volume, [.checkContext, .alCall "alSourcef"]⟩

/-- AudioController::get_volume for Sound: 0 on invalid context, else
alGetSourcef(AL_GAIN). -/
def Sound.get_volume (ctx : Ctx) (s : Sound) (st : ALState) : OpResult Rat :=
  match ctx with
  | .error err => ⟨0, st, [.checkContext, .log err]⟩
  | .ok _ =>
    ⟨alGetSourcef st s.al_source .AL_GAIN, st, [.checkContext, .alCall "alGetSourcef"]⟩

/-- AudioController::set_min_volume for Sound: alSourcef(AL_MIN_GAIN). -/
def Sound.set_min_volume (ctx : Ctx) (s : Sound) (st : ALState) (min_volume : Rat) :
    OpResult Unit :=
  match ctx with
  | .error err => ⟨(), st, [.checkContext, .log err]⟩
  | .ok _ =>
    ⟨(), alSourcef st s.al_source .AL_MIN_GAIN min_volume, [.checkContext, .alCall "alSourcef"]⟩

/-- AudioController::get_min_volume for Sound: 0 on invalid context, else
alGetSourcef(AL_MIN_GAIN). -/
def Sound.get_min_volume (ctx : Ctx) (s : Sound) (st : ALState) : OpResult Rat :=
  match ctx with
  | .error err => ⟨0, st, [.checkContext, .log err]⟩
  | .ok _ =>
    ⟨alGetSourcef st s.al_source .AL_MIN_GAIN, st, [.checkContext, .alCall "alGetSourcef"]⟩

/-- AudioController::set_max_volume for Sound: alSourcef(AL_MAX_GAIN). -/
def Sound.set_max_volume (ctx : Ctx) (s : Sound) (st : ALState) (max_volume : Rat) :
    OpResult Unit :=
  match ctx with
  | .error err => ⟨(), st, [.checkContext, .log err]⟩
  | .ok _ =>
    ⟨(), alSourcef st s.al_source .AL_MAX_GAIN max_volume, [.checkContext, .alCall "alSourcef"]⟩

/-- AudioController::get_max_volume for Sound: 0 on invalid context, else
alGetSourcef(AL_MAX_GAIN). -/
def Sound.get_max_volume (ctx : Ctx) (s : Sound) (st : ALState) : OpResult Rat :=
  match ctx with
  | .error err => ⟨0, st, [.checkContext, .log err]⟩
  | .ok _ =>
    ⟨alGetSourcef st s.al_source .AL_MAX_GAIN, st, [.checkContext, .alCall "alGetSourcef"]⟩

/-- AudioController::set_looping for Sound: alSourcei(AL_LOOPING, ALC_TRUE
or ALC_FALSE as i32). -/
def Sound.set_looping (ctx : Ctx) (s : Sound) (st : ALState) (looping : Bool) : OpResult Unit :=
  match ctx with
  | .error err => ⟨(), st, [.checkContext, .log err]⟩
  | .ok _ =>
    let st1 :=
      match looping with
      | true => alSourcei st s.al_source .AL_LOOPING ALC_TRUE
      | false => alSourcei st s.al_source .AL_LOOPING ALC_FALSE
    ⟨(), st1, [.checkContext, .alCall "alSourcei"]⟩

/-- AudioController::is_looping for Sound: false on invalid context;
otherwise alGetSourcei(AL_LOOPING) and a match on the value `as i8` whose
final arm is `unreachable!()`, modelled as `none` (a panic). -/
def Sound.is_looping (ctx : Ctx) (s : Sound) (st : ALState) : OpResult (Option Bool) :=
  match ctx with
  | .error err => ⟨some false, st, [.checkContext, .log err]⟩
  | .ok _ =>
    let boolean := alGetSourcei st s.al_source .AL_LOOPING
    let r : Option Bool :=
      if i8cast boolean = ALC_TRUE then some true
      else if i8cast boolean = ALC_FALSE then some false
      else none
    ⟨r, st, [.checkContext, .alCall "alGetSourcei"]⟩

/-- AudioController::set_pitch for Sound: alSourcef(AL_PITCH). -/
def Sound.set_pitch (ctx : Ctx) (s : Sound) (st : ALState) (pitch : Rat) : OpResult Unit :=
  match ctx with
  | .error err => ⟨(), st, [.checkContext, .log err]⟩
  | .ok _ =>
    ⟨(), alSourcef st s.al_source .AL_PITCH pitch, [.checkContext, .alCall "alSourcef"]⟩

/-- AudioController::get_pitch for Sound: 0 on invalid context, else
alGetSourcef(AL_PITCH). -/
def Sound.get_pitch (ctx : Ctx) (s : Sound) (st : ALState) : OpResult Rat :=
  match ctx with
  | .error err => ⟨0, st, [.checkContext, .log err]⟩
  | .ok _ =>
    ⟨alGetSourcef st s.al_source .AL_PITCH, st, [.checkContext, .alCall "alGetSourcef"]⟩

/-- AudioController::set_relative for Sound: alSourcei(AL_SOURCE_RELATIVE,
ALC_TRUE or ALC_FALSE as i32). -/
def Sound.set_relative (ctx : Ctx) (s : Sound) (st : ALState) (relative : Bool) :
    OpResult Unit :=
  match ctx with
  | .error err => ⟨(), st, [.checkContext, .log err]⟩
  | .ok _ =>
    let st1 :=
      match relative with
      | true => alSourcei st s.al_source .AL_SOURCE_RELATIVE ALC_TRUE
      | false => alSourcei st s.al_source .AL_SOURCE_RELATIVE ALC_FALSE
    ⟨(), st1, [.checkContext, .alCall "alSourcei"]⟩

/-- AudioController::is_relative for Sound: false on invalid context;
otherwise alGetSourcei(AL_SOURCE_RELATIVE) and a match on the value `as i8`
whose final arm is `unreachable!()`, modelled as `none` (a panic). -/
def Sound.is_relative (ctx : Ctx) (s : Sound) (st : ALState) : OpResult (Option Bool) :=
  match ctx with
  | .error err => ⟨some false, st, [.checkContext, .log err]⟩
  | .ok _ =>
    let boolean := alGetSourcei st s.al_source .AL_SOURCE_RELATIVE
    let r : Option Bool :=
      if i8cast boolean = ALC_TRUE then some true
      else if i8cast boolean = ALC_FALSE then some false
      else none
    ⟨r, st, [.checkContext, .alCall "alGetSourcei"]⟩

/-- AudioController::set_position for Sound: alSourcefv(AL_POSITION). -/
def Sound.set_position (ctx : Ctx) (s : Sound) (st : ALState) (position : V3) :
    OpResult Unit :=
  match ctx with
  | .error err => ⟨(), st, [.checkContext, .log err]⟩
  | .ok _ =>
    ⟨(), alSourcefv st s.al_source .AL_POSITION position, [.checkContext, .alCall "alSourcefv"]⟩

/-- AudioController::get_position for Sound: the zero vector on invalid
context, else alGetSourcefv(AL_POSITION). -/
def Sound.get_position (ctx : Ctx) (s : Sound) (st : ALState) : OpResult V3 :=
  match ctx with
  | .error err => ⟨V3.zero, st, [.checkContext, .log err]⟩
  | .ok _ =>
    ⟨alGetSourcefv st s.al_source .AL_POSITION, st, [.checkContext, .alCall "alGetSourcefv"]⟩

/-- AudioController::set_direction for Sound: alSourcefv(AL_DIRECTION). -/
def Sound.set_direction (ctx : Ctx) (s : Sound) (st : ALState) (direction : V3) :
    OpResult Unit :=
  match ctx with
  | .error err => ⟨(), st, [.checkContext, .log err]⟩
  | .ok _ =>
    ⟨(), alSourcefv st s.al_source .AL_DIRECTION direction, [.checkContext, .alCall "alSourcefv"]⟩

/-- AudioController::get_direction for Sound: the zero vector on invalid
context, else alGetSourcefv(AL_DIRECTION). -/
def Sound.get_direction (ctx : Ctx) (s : Sound) (st : ALState) : OpResult V3 :=
  match ctx with
  | .error err => ⟨V3.zero, st, [.checkContext, .log err]⟩
  | .ok _ =>
    ⟨alGetSourcefv st s.al_source .AL_DIRECTION, st, [.checkContext, .alCall "alGetSourcefv"]⟩

/-- AudioController::set_max_distance for Sound: alSourcef(AL_MAX_DISTANCE). -/
def Sound.set_max_distance (ctx : Ctx) (s : Sound) (st : ALState) (max_distance : Rat) :
    OpResult Unit :=
  match ctx with
  | .error err => ⟨(), st, [.checkContext, .log err]⟩
  | .ok _ =>
    ⟨(), alSourcef st s.al_source .AL_MAX_DISTANCE max_distance,
      [.checkContext, .alCall "alSourcef"]⟩

/-- AudioController::get_max_distance for Sound: 0 on invalid context, else
alGetSourcef(AL_MAX_DISTANCE). -/
def Sound.get_max_distance (ctx : Ctx) (s : Sound) (st : ALState) : OpResult Rat :=
  match ctx with
  | .error err => ⟨0, st, [.checkContext, .log err]⟩
  | .ok _ =>
    ⟨alGetSourcef st s.al_source .AL_MAX_DISTANCE, st, [.checkContext, .alCall "alGetSourcef"]⟩

/-- AudioController::set_reference_distance for Sound:
alSourcef(AL_REFERENCE_DISTANCE). -/
def Sound.set_reference_distance (ctx : Ctx) (s : Sound) (st : ALState) (ref_distance : Rat) :
    OpResult Unit :=
  match ctx with
  | .error err => ⟨(), st, [.checkContext, .log err]⟩
  | .ok _ =>
    ⟨(), alSourcef st s.al_source .AL_REFERENCE_DISTANCE ref_distance,
      [.checkContext, .alCall "alSourcef"]⟩

/-- AudioController::get_reference_distance for Sound: 1 on invalid context
(the fallback written in the source), else alGetSourcef(AL_REFERENCE_DISTANCE). -/
def Sound.get_reference_distance (ctx : Ctx) (s : Sound) (st : ALState) : OpResult Rat :=
  match ctx with
  | .error err => ⟨1, st, [.checkContext, .log err]⟩
  | .ok _ =>
    ⟨alGetSourcef st s.al_source .AL_REFERENCE_DISTANCE, st,
      [.checkContext, .alCall "alGetSourcef"]⟩

/-- AudioController::set_attenuation for Sound: alSourcef(AL_ROLLOFF_FACTOR). -/
def Sound.set_attenuation (ctx : Ctx) (s : Sound) (st : ALState) (attenuation : Rat) :
    OpResult Unit :=
  match ctx with
  | .error err => ⟨(), st, [.checkContext, .log err]⟩
  | .ok _ =>
    ⟨(), alSourcef st s.al_source .AL_ROLLOFF_FACTOR attenuation,
      [.checkContext, .alCall "alSourcef"]⟩

/-- AudioController::get_attenuation for Sound: 1 on invalid context (the
fallback written in the source), else alGetSourcef(AL_ROLLOFF_FACTOR). -/
def Sound.get_attenuation (ctx : Ctx) (s : Sound) (st : ALState) : OpResult Rat :=
  match ctx with
  | .error err => ⟨1, st, [.checkContext, .log err]⟩
  | .ok _ =>
    ⟨alGetSourcef st s.al_source .AL_ROLLOFF_FACTOR, st,
      [.checkContext, .alCall "alGetSourcef"]⟩

/-- Drop for Sound: alDeleteSources on the owned source handle,
unconditionally (no context check, no error check). -/
def Sound.drop (s : Sound) (st : ALState) : OpResult Unit :=
  ⟨(), alDeleteSources st s.al_source, [.alCall "alDeleteSources"]⟩

/-- A source record with every parameter zeroed, used for concrete states. -/
def src0 : ALSource :=
  ⟨0, 0, 0, 0, 0, 0, 0, 0, 0, 0, 0, V3.zero, V3.zero⟩

/-- A concrete backend state: all sources zeroed, nothing live, no pending
error. -/
def st0 : ALState := ⟨fun _ => src0, fun _ => false, 0, none⟩

/-- A concrete backend state with a pending backend error. -/
def stErr : ALState := ⟨fun _ => src0, fun _ => false, 0, some "backend error"⟩

/-- A concrete SoundData. -/
def sd0 : SoundData := ⟨7⟩

/-- A concrete Sound bound to sd0. -/
def s0 : Sound := ⟨0, sd0⟩

/-- A valid context. -/
def ctxOk : Ctx := .ok ()

/-- An invalid context with its diagnostic. -/
def ctxBad : Ctx := .error "no context"

/-- A concrete backend state whose source 0 stores the integer 2 in its
AL_LOOPING slot (a value the is_looping match does not cover). -/
def stLoop2 : ALState :=
  ⟨fun _ => { src0 with looping := 2 }, fun _ => false, 0, none⟩

/-- The i8 cast fixes ALC_TRUE. -/
theorem i8cast_alc_true : i8cast ALC_TRUE = ALC_TRUE := by decide

/-- The i8 cast fixes ALC_FALSE. -/
theorem i8cast_alc_false : i8cast ALC_FALSE = ALC_FALSE := by decide

/-- Claim C1, counterexample: with an invalid context, the numeric getters
get_reference_distance and get_attenuation return 1, not the claimed 0, and
the buffer query emits no diagnostic at all. -/
theorem invalid_ctx_numeric_fallback_counterexample :
    (Sound.get_reference_distance ctxBad s0 st0).res = 1 ∧
    (Sound.get_attenuation ctxBad s0 st0).res = 1 ∧
    (1 : Rat) ≠ 0 ∧
    (Sound.get_datas s0 st0).events = [] := by
  refine ⟨rfl, rfl, by decide, rfl⟩

/-- Claim C1, amended: every operation except the buffer query and teardown
checks the context; on invalidity it is skipped (backend state unchanged), a
diagnostic is emitted, and the type-appropriate default is returned — false
for boolean getters, Initial for the state getter, the zero vector for
vector getters, no value for constructors, no state change for setters, and
0 for numeric getters except reference distance and attenuation, which
return 1.  The buffer query still returns the buffer and teardown still
releases the handle, without any context check or diagnostic. -/
theorem invalid_ctx_defaults (e : String) (s : Sound) (st : ALState) (v : Rat)
    (b : Bool) (p : V3) (sd : SoundData) (dec : String → Option SoundData)
    (path : String) :
    Sound.play (.error e) s st = ⟨(), st, [.checkContext, .log e]⟩ ∧
    Sound.pause (.error e) s st = ⟨(), st, [.checkContext, .log e]⟩ ∧
    Sound.stop (.error e) s st = ⟨(), st, [.checkContext, .log e]⟩ ∧
    Sound.get_state (.error e) s st = ⟨some .Initial, st, [.checkContext, .log e]⟩ ∧
    Sound.is_playing (.error e) s st = ⟨some false, st, [.checkContext, .log e]⟩ ∧
    Sound.set_volume (.error e) s st v = ⟨(), st, [.checkContext, .log e]⟩ ∧
    Sound.get_volume (.error e) s st = ⟨0, st, [.checkContext, .log e]⟩ ∧
    Sound.set_min_volume (.error e) s st v = ⟨(), st, [.checkContext, .log e]⟩ ∧
    Sound.get_min_volume (.error e) s st = ⟨0, st, [.checkContext, .log e]⟩ ∧
    Sound.set_max_volume (.error e) s st v = ⟨(), st, [.checkContext, .log e]⟩ ∧
    Sound.get_max_volume (.error e) s st = ⟨0, st, [.checkContext, .log e]⟩ ∧
    Sound.set_looping (.error e) s st b = ⟨(), st, [.checkContext, .log e]⟩ ∧
    Sound.is_looping (.error e) s st = ⟨some false, st, [.checkContext, .log e]⟩ ∧
    Sound.set_pitch (.error e) s st v = ⟨(), st, [.checkContext, .log e]⟩ ∧
    Sound.get_pitch (.error e) s st = ⟨0, st, [.checkContext, .log e]⟩ ∧
    Sound.set_relative (.error e) s st b = ⟨(), st, [.checkContext, .log e]⟩ ∧
    Sound.is_relative (.error e) s st = ⟨some false, st, [.checkContext, .log e]⟩ ∧
    Sound.set_position (.error e) s st p = ⟨(), st, [.checkContext, .log e]⟩ ∧
    Sound.get_position (.error e) s st = ⟨V3.zero, st, [.checkContext, .log e]⟩ ∧
    Sound.set_direction (.error e) s st p = ⟨(), st, [.checkContext, .log e]⟩ ∧
    Sound.get_direction (.error e) s st = ⟨V3.zero, st, [.checkContext, .log e]⟩ ∧
    Sound.set_max_distance (.error e) s st v = ⟨(), st, [.checkContext, .log e]⟩ ∧
    Sound.get_max_distance (.error e) s st = ⟨0, st, [.checkContext, .log e]⟩ ∧
    Sound.set_reference_distance (.error e) s st v = ⟨(), st, [.checkContext, .log e]⟩ ∧
    Sound.get_reference_distance (.error e) s st = ⟨1, st, [.checkContext, .log e]⟩ ∧
    Sound.set_attenuation (.error e) s st v = ⟨(), st, [.checkContext, .log e]⟩ ∧
    Sound.get_attenuation (.error e) s st = ⟨1, st, [.checkContext, .log e]⟩ ∧
    Sound.new_with_data (.error e) sd st = ⟨none, st, [.checkContext, .log e]⟩ ∧
    Sound.new (.error e) dec path st = ⟨none, st, [.checkContext, .log e]⟩ ∧
    Sound.get_datas s st = ⟨s.sound_data, st, []⟩ ∧
    Sound.drop s st = ⟨(), alDeleteSources st s.al_source, [.alCall "alDeleteSources"]⟩ := by
  exact ⟨rfl, rfl, rfl, rfl, rfl, rfl, rfl, rfl, rfl, rfl, rfl, rfl, rfl, rfl, rfl,
    rfl, rfl, rfl, rfl, rfl, rfl, rfl, rfl, rfl, rfl, rfl, rfl, rfl, rfl, rfl, rfl⟩

/-- Claim C2, counterexample: the backend state word 0 (and a looping slot
holding 2) make get_state and is_looping take their unreachable branch,
modelled as `none`, i.e. a panic. -/
theorem state_read_panic_counterexample :
    (Sound.get_state ctxOk s0 st0).res = none ∧
    (Sound.is_looping ctxOk s0 stLoop2).res = none := by
  refine ⟨by decide, by decide⟩

/-- Claim C2, amended: with a valid context, get_state returns normally
exactly when the stored state word is one of the four AL state constants,
and is_looping / is_relative return normally exactly when the stored value
truncated to i8 is ALC_TRUE or ALC_FALSE; for any other stored value the
unreachable branch (a panic) is taken. -/
theorem state_reads_return_iff (s : Sound) (st : ALState) :
    ((Sound.get_state ctxOk s st).res ≠ none ↔
      ((st.sources s.al_source).sourceState = AL_INITIAL ∨
       (st.sources s.al_source).sourceState = AL_PLAYING ∨
       (st.sources s.al_source).sourceState = AL_PAUSED ∨
       (st.sources s.al_source).sourceState = AL_STOPPED)) ∧
    ((Sound.is_looping ctxOk s st).res ≠ none ↔
      (i8cast (st.sources s.al_source).looping = ALC_TRUE ∨
       i8cast (st.sources s.al_source).looping = ALC_FALSE)) ∧
    ((Sound.is_relative ctxOk s st).res ≠ none ↔
      (i8cast (st.sources s.al_source).srcRelative = ALC_TRUE ∨
       i8cast (st.sources s.al_source).srcRelative = ALC_FALSE)) := by
  refine ⟨?_, ?_, ?_⟩ <;>
    · simp only [Sound.get_state, Sound.is_looping, Sound.is_relative, ctxOk, alGetSourcei]
      split_ifs <;> simp_all

/-- Claim C3, counterexample: pause makes its backend call but never queries
the backend error state afterwards. -/
theorem pause_skips_error_check :
    Event.alCall "alSourcePause" ∈ (Sound.pause ctxOk s0 st0).events ∧
    Event.getError ∉ (Sound.pause ctxOk s0 st0).events := by
  decide

/-- Claim C3, amended: only play and construction from a buffer query the
backend error state after their backend calls; pause, stop, every setter and
getter, the buffer query and teardown never query it. -/
theorem error_check_coverage (s : Sound) (st : ALState) (v : Rat) (b : Bool)
    (p : V3) (sd : SoundData) :
    Event.getError ∈ (Sound.play ctxOk s st).events ∧
    Event.getError ∈ (Sound.new_with_data ctxOk sd st).events ∧
    Event.getError ∉ (Sound.pause ctxOk s st).events ∧
    Event.getError ∉ (Sound.stop ctxOk s st).events ∧
    Event.getError ∉ (Sound.get_state ctxOk s st).events ∧
    Event.getError ∉ (Sound.is_playing ctxOk s st).events ∧
    Event.getError ∉ (Sound.set_volume ctxOk s st v).events ∧
    Event.getError ∉ (Sound.get_volume ctxOk s st).events ∧
    Event.getError ∉ (Sound.set_min_volume ctxOk s st v).events ∧
    Event.getError ∉ (Sound.get_min_volume ctxOk s st).events ∧
    Event.getError ∉ (Sound.set_max_volume ctxOk s st v).events ∧
    Event.getError ∉ (Sound.get_max_volume ctxOk s st).events ∧
    Event.getError ∉ (Sound.set_looping ctxOk s st b).events ∧
    Event.getError ∉ (Sound.is_looping ctxOk s st).events ∧
    Event.getError ∉ (Sound.set_pitch ctxOk s st v).events ∧
    Event.getError ∉ (Sound.get_pitch ctxOk s st).events ∧
    Event.getError ∉ (Sound.set_relative ctxOk s st b).events ∧
    Event.getError ∉ (Sound.is_relative ctxOk s st).events ∧
    Event.getError ∉ (Sound.set_position ctxOk s st p).events ∧
    Event.getError ∉ (Sound.get_position ctxOk s st).events ∧
    Event.getError ∉ (Sound.set_direction ctxOk s st p).events ∧
    Event.getError ∉ (Sound.get_direction ctxOk s st).events ∧
    Event.getError ∉ (Sound.set_max_distance ctxOk s st v).events ∧
    Event.getError ∉ (Sound.get_max_distance ctxOk s st).events ∧
    Event.getError ∉ (Sound.set_reference_distance ctxOk s st v).events ∧
    Event.getError ∉ (Sound.get_reference_distance ctxOk s st).events ∧
    Event.getError ∉ (Sound.set_attenuation ctxOk s st v).events ∧
    Event.getError ∉ (Sound.get_attenuation ctxOk s st).events ∧
    Event.getError ∉ (Sound.get_datas s st).events ∧
    Event.getError ∉ (Sound.drop s st).events := by
  cases herr : st.err <;>
    simp [Sound.play, Sound.new_with_data, Sound.pause, Sound.stop, Sound.get_state,
      Sound.is_playing, Sound.set_volume, Sound.get_volume, Sound.set_min_volume,
      Sound.get_min_volume, Sound.set_max_volume, Sound.get_max_volume,
      Sound.set_looping, Sound.is_looping, Sound.set_pitch, Sound.get_pitch,
      Sound.set_relative, Sound.is_relative, Sound.set_position, Sound.get_position,
      Sound.set_direction, Sound.get_direction, Sound.set_max_distance,
      Sound.get_max_distance, Sound.set_reference_distance,
      Sound.get_reference_distance, Sound.set_attenuation, Sound.get_attenuation,
      Sound.get_datas, Sound.drop, ctxOk, openal_has_error, alSourcePlay,
      alSourcePause, alSourceStop, alGenSources, alSourcei, alSourcef, alSourcefv,
      setSrc, herr]

/-- Claim C4, counterexample: the buffer query (get_datas) and teardown
(drop) never query the context oracle. -/
theorem get_datas_and_drop_skip_ctx_check :
    Event.checkContext ∉ (Sound.get_datas s0 st0).events ∧
    Event.checkContext ∉ (Sound.drop s0 st0).events := by
  decide

/-- Claim C4, amended: every operation except the buffer query and teardown
performs the context-validity check as its first action; get_datas and drop
never query the context oracle at all. -/
theorem ctx_check_first (ctx : Ctx) (s : Sound) (st : ALState) (v : Rat) (b : Bool)
    (p : V3) (sd : SoundData) (dec : String → Option SoundData) (path : String) :
    (Sound.new ctx dec path st).events.head? = some .checkContext ∧
    (Sound.new_with_data ctx sd st).events.head? = some .checkContext ∧
    (Sound.play ctx s st).events.head? = some .checkContext ∧
    (Sound.pause ctx s st).events.head? = some .checkContext ∧
    (Sound.stop ctx s st).events.head? = some .checkContext ∧
    (Sound.get_state ctx s st).events.head? = some .checkContext ∧
    (Sound.is_playing ctx s st).events.head? = some .checkContext ∧
    (Sound.set_volume ctx s st v).events.head? = some .checkContext ∧
    (Sound.get_volume ctx s st).events.head? = some .checkContext ∧
    (Sound.set_min_volume ctx s st v).events.head? = some .checkContext ∧
    (Sound.get_min_volume ctx s st).events.head? = some .checkContext ∧
    (Sound.set_max_volume ctx s st v).events.head? = some .checkContext ∧
    (Sound.get_max_volume ctx s st).events.head? = some .checkContext ∧
    (Sound.set_looping ctx s st b).events.head? = some .checkContext ∧
    (Sound.is_looping ctx s st).events.head? = some .checkContext ∧
    (Sound.set_pitch ctx s st v).events.head? = some .checkContext ∧
    (Sound.get_pitch ctx s st).events.head? = some .checkContext ∧
    (Sound.set_relative ctx s st b).events.head? = some .checkContext ∧
    (Sound.is_relative ctx s st).events.head? = some .checkContext ∧
    (Sound.set_position ctx s st p).events.head? = some .checkContext ∧
    (Sound.get_position ctx s st).events.head? = some .checkContext ∧
    (Sound.set_direction ctx s st p).events.head? = some .checkContext ∧
    (Sound.get_direction ctx s st).events.head? = some .checkContext ∧
    (Sound.set_max_distance ctx s st v).events.head? = some .checkContext ∧
    (Sound.get_max_distance ctx s st).events.head? = some .checkContext ∧
    (Sound.set_reference_distance ctx s st v).events.head? = some .checkContext ∧
    (Sound.get_reference_distance ctx s st).events.head? = some .checkContext ∧
    (Sound.set_attenuation ctx s st v).events.head? = some .checkContext ∧
    (Sound.get_attenuation ctx s st).events.head? = some .checkContext ∧
    Event.checkContext ∉ (Sound.get_datas s st).events ∧
    Event.checkContext ∉ (Sound.drop s st).events := by
  cases ctx <;> cases herr : st.err <;> cases hdp : dec path <;>
    simp [Sound.new, Sound.new_with_data, Sound.play, Sound.pause, Sound.stop,
      Sound.get_state, Sound.is_playing, Sound.set_volume, Sound.get_volume,
      Sound.set_min_volume, Sound.get_min_volume, Sound.set_max_volume,
      Sound.get_max_volume, Sound.set_looping, Sound.is_looping, Sound.set_pitch,
      Sound.get_pitch, Sound.set_relative, Sound.is_relative, Sound.set_position,
      Sound.get_position, Sound.set_direction, Sound.get_direction,
      Sound.set_max_distance, Sound.get_max_distance, Sound.set_reference_distance,
      Sound.get_reference_distance, Sound.set_attenuation, Sound.get_attenuation,
      Sound.get_datas, Sound.drop, openal_has_error, alSourcePlay, alSourcePause,
      alSourceStop, alGenSources, alSourcei, alSourcef, alSourcefv, setSrc, herr, hdp]

/-- Claim C5: construction from a path returns no value when the context is
invalid, when decoding fails, or when the backend reports an error after
handle creation and binding; construction from a shared buffer has the same
failure modes minus decoding; otherwise both return a Sound whose shared
buffer is the given one and whose source handle has the buffer bound. -/
theorem construction_failure_modes (dec : String → Option SoundData) (path : String)
    (e msg : String) (sd : SoundData) (st : ALState) :
    (Sound.new (.error e) dec path st).res = none ∧
    (Sound.new_with_data (.error e) sd st).res = none ∧
    (dec path = none → (Sound.new ctxOk dec path st).res = none) ∧
    (st.err = some msg → (Sound.new_with_data ctxOk sd st).res = none) ∧
    (dec path = some sd → st.err = some msg → (Sound.new ctxOk dec path st).res = none) ∧
    (st.err = none →
      ∃ snd, (Sound.new_with_data ctxOk sd st).res = some snd ∧
        snd.sound_data = sd ∧
        ((Sound.new_with_data ctxOk sd st).st.sources snd.al_source).buffer
          = i32cast (Int.ofNat sd.get_buffer)) ∧
    (dec path = some sd → st.err = none →
      ∃ snd, (Sound.new ctxOk dec path st).res = some snd ∧
        snd.sound_data = sd ∧
        ((Sound.new ctxOk dec path st).st.sources snd.al_source).buffer
          = i32cast (Int.ofNat sd.get_buffer)) := by
  refine ⟨rfl, rfl, ?_, ?_, ?_, ?_, ?_⟩
  · intro h
    simp [Sound.new, ctxOk, h]
  · intro h
    simp [Sound.new_with_data, ctxOk, openal_has_error, alGenSources, alSourcei, setSrc, h]
  · intro h1 h2
    simp [Sound.new, Sound.new_with_data, ctxOk, openal_has_error, alGenSources,
      alSourcei, setSrc, h1, h2]
  · intro h
    refine ⟨⟨st.nextId, sd⟩, ?_, rfl, ?_⟩ <;>
      simp [Sound.new_with_data, ctxOk, openal_has_error, alGenSources, alSourcei,
        setSrc, h, SoundData.get_buffer]
  · intro h1 h2
    refine ⟨⟨st.nextId, sd⟩, ?_, rfl, ?_⟩ <;>
      simp [Sound.new, Sound.new_with_data, ctxOk, openal_has_error, alGenSources,
        alSourcei, setSrc, h1, h2, SoundData.get_buffer]

/-- Claim C5, witness: a failing decoder makes Sound::new return no value,
and a pending backend error makes Sound::new_with_data return no value. -/
theorem construction_failure_modes_witness :
    ((fun _ => none : String → Option SoundData) "p" = none ∧
      (Sound.new ctxOk (fun _ => none) "p" st0).res = none) ∧
    (stErr.err = some "backend error" ∧
      (Sound.new_with_data ctxOk sd0 stErr).res = none) :=
  ⟨⟨rfl,
    (construction_failure_modes (fun _ => none) "p" "e" "backend error" sd0 st0).2.2.1 rfl⟩,
   ⟨rfl,
    (construction_failure_modes (fun _ => none) "p" "e" "backend error" sd0
      stErr).2.2.2.1 rfl⟩⟩

/-- Claim C6: teardown is the only operation that releases the source
handle, and its trace releases it exactly once; play, pause, stop, every
getter and setter, construction and the buffer query never release a
handle. -/
theorem teardown_releases_once (ctx : Ctx) (s : Sound) (st : ALState) (v : Rat)
    (b : Bool) (p : V3) (sd : SoundData) (dec : String → Option SoundData)
    (path : String) :
    (Sound.drop s st).events = [Event.alCall "alDeleteSources"] ∧
    Event.alCall "alDeleteSources" ∉ (Sound.new ctx dec path st).events ∧
    Event.alCall "alDeleteSources" ∉ (Sound.new_with_data ctx sd st).events ∧
    Event.alCall "alDeleteSources" ∉ (Sound.play ctx s st).events ∧
    Event.alCall "alDeleteSources" ∉ (Sound.pause ctx s st).events ∧
    Event.alCall "alDeleteSources" ∉ (Sound.stop ctx s st).events ∧
    Event.alCall "alDeleteSources" ∉ (Sound.get_state ctx s st).events ∧
    Event.alCall "alDeleteSources" ∉ (Sound.is_playing ctx s st).events ∧
    Event.alCall "alDeleteSources" ∉ (Sound.set_volume ctx s st v).events ∧
    Event.alCall "alDeleteSources" ∉ (Sound.get_volume ctx s st).events ∧
    Event.alCall "alDeleteSources" ∉ (Sound.set_min_volume ctx s st v).events ∧
    Event.alCall "alDeleteSources" ∉ (Sound.get_min_volume ctx s st).events ∧
    Event.alCall "alDeleteSources" ∉ (Sound.set_max_volume ctx s st v).events ∧
    Event.alCall "alDeleteSources" ∉ (Sound.get_max_volume ctx s st).events ∧
    Event.alCall "alDeleteSources" ∉ (Sound.set_looping ctx s st b).events ∧
    Event.alCall "alDeleteSources" ∉ (Sound.is_looping ctx s st).events ∧
    Event.alCall "alDeleteSources" ∉ (Sound.set_pitch ctx s st v).events ∧
    Event.alCall "alDeleteSources" ∉ (Sound.get_pitch ctx s st).events ∧
    Event.alCall "alDeleteSources" ∉ (Sound.set_relative ctx s st b).events ∧
    Event.alCall "alDeleteSources" ∉ (Sound.is_relative ctx s st).events ∧
    Event.alCall "alDeleteSources" ∉ (Sound.set_position ctx s st p).events ∧
    Event.alCall "alDeleteSources" ∉ (Sound.get_position ctx s st).events ∧
    Event.alCall "alDeleteSources" ∉ (Sound.set_direction ctx s st p).events ∧
    Event.alCall "alDeleteSources" ∉ (Sound.get_direction ctx s st).events ∧
    Event.alCall "alDeleteSources" ∉ (Sound.set_max_distance ctx s st v).events ∧
    Event.alCall "alDeleteSources" ∉ (Sound.get_max_distance ctx s st).events ∧
    Event.alCall "alDeleteSources" ∉ (Sound.set_reference_distance ctx s st v).events ∧
    Event.alCall "alDeleteSources" ∉ (Sound.get_reference_distance ctx s st).events ∧
    Event.alCall "alDeleteSources" ∉ (Sound.set_attenuation ctx s st v).events ∧
    Event.alCall "alDeleteSources" ∉ (Sound.get_attenuation ctx s st).events ∧
    Event.alCall "alDeleteSources" ∉ (Sound.get_datas s st).events := by
  cases ctx <;> cases herr : st.err <;> cases hdp : dec path <;>
    simp [Sound.new, Sound.new_with_data, Sound.play, Sound.pause, Sound.stop,
      Sound.get_state, Sound.is_playing, Sound.set_volume, Sound.get_volume,
      Sound.set_min_volume, Sound.get_min_volume, Sound.set_max_volume,
      Sound.get_max_volume, Sound.set_looping, Sound.is_looping, Sound.set_pitch,
      Sound.get_pitch, Sound.set_relative, Sound.is_relative, Sound.set_position,
      Sound.get_position, Sound.set_direction, Sound.get_direction,
      Sound.set_max_distance, Sound.get_max_distance, Sound.set_reference_distance,
      Sound.get_reference_distance, Sound.set_attenuation, Sound.get_attenuation,
      Sound.get_datas, Sound.drop, openal_has_error, alSourcePlay, alSourcePause,
      alSourceStop, alGenSources, alSourcei, alSourcef, alSourcefv, setSrc, herr, hdp]

/-- Claim C7: with a valid context, setting any supported parameter and then
reading it back on the same Sound returns the value that was set (the layer
transports values exactly; it performs no arithmetic on them). -/
theorem set_get_roundtrip (s : Sound) (st : ALState) (v : Rat) (b : Bool) (p : V3) :
    (Sound.get_volume ctxOk s (Sound.set_volume ctxOk s st v).st).res = v ∧
    (Sound.get_min_volume ctxOk s (Sound.set_min_volume ctxOk s st v).st).res = v ∧
    (Sound.get_max_volume ctxOk s (Sound.set_max_volume ctxOk s st v).st).res = v ∧
    (Sound.get_pitch ctxOk s (Sound.set_pitch ctxOk s st v).st).res = v ∧
    (Sound.get_max_distance ctxOk s (Sound.set_max_distance ctxOk s st v).st).res = v ∧
    (Sound.get_reference_distance ctxOk s
      (Sound.set_reference_distance ctxOk s st v).st).res = v ∧
    (Sound.get_attenuation ctxOk s (Sound.set_attenuation ctxOk s st v).st).res = v ∧
    (Sound.is_looping ctxOk s (Sound.set_looping ctxOk s st b).st).res = some b ∧
    (Sound.is_relative ctxOk s (Sound.set_relative ctxOk s st b).st).res = some b ∧
    (Sound.get_position ctxOk s (Sound.set_position ctxOk s st p).st).res = p ∧
    (Sound.get_direction ctxOk s (Sound.set_direction ctxOk s st p).st).res = p := by
  cases b <;>
    simp [Sound.set_volume, Sound.get_volume, Sound.set_min_volume, Sound.get_min_volume,
      Sound.set_max_volume, Sound.get_max_volume, Sound.set_pitch, Sound.get_pitch,
      Sound.set_max_distance, Sound.get_max_distance, Sound.set_reference_distance,
      Sound.get_reference_distance, Sound.set_attenuation, Sound.get_attenuation,
      Sound.set_looping, Sound.is_looping, Sound.set_relative, Sound.is_relative,
      Sound.set_position, Sound.get_position, Sound.set_direction, Sound.get_direction,
      ctxOk, alSourcef, alGetSourcef, alSourcei, alGetSourcei, alSourcefv,
      alGetSourcefv, setSrc, i8cast, ALC_TRUE, ALC_FALSE]

/-- Claim C8: is_playing returns true exactly when get_state returns
Playing, and it does not change the backend state. -/
theorem is_playing_iff_playing_state (ctx : Ctx) (s : Sound) (st : ALState) :
    ((Sound.is_playing ctx s st).res = some true ↔
      (Sound.get_state ctx s st).res = some State.Playing) ∧
    (Sound.is_playing ctx s st).st = st := by
  refine ⟨?_, ?_⟩
  · simp only [Sound.is_playing]
    cases hr : (Sound.get_state ctx s st).res with
    | none => simp
    | some v => cases v <;> simp
  · cases ctx <;> simp [Sound.is_playing, Sound.get_state]

/-- Claim C9: construction returns a Sound holding exactly the given shared
buffer, whose source handle has that buffer bound in the backend; the buffer
query always returns the Sound struct field set at construction; and no
operation after construction ever rewrites the AL_BUFFER binding of any
source. -/
theorem buffer_binding_stable (ctx : Ctx) (s : Sound) (st : ALState) (v : Rat)
    (b : Bool) (p : V3) (i : Nat) :
    (∀ sd2 st2, ALState.err st2 = none →
      ∃ snd, (Sound.new_with_data ctxOk sd2 st2).res = some snd ∧
        snd.sound_data = sd2 ∧
        (Sound.get_datas snd st2).res = sd2 ∧
        ((Sound.new_with_data ctxOk sd2 st2).st.sources snd.al_source).buffer
          = i32cast (Int.ofNat sd2.get_buffer)) ∧
    (Sound.get_datas s st).res = s.sound_data ∧
    ((Sound.play ctx s st).st.sources i).buffer = (st.sources i).buffer ∧
    ((Sound.pause ctx s st).st.sources i).buffer = (st.sources i).buffer ∧
    ((Sound.stop ctx s st).st.sources i).buffer = (st.sources i).buffer ∧
    ((Sound.get_state ctx s st).st.sources i).buffer = (st.sources i).buffer ∧
    ((Sound.is_playing ctx s st).st.sources i).buffer = (st.sources i).buffer ∧
    ((Sound.set_volume ctx s st v).st.sources i).buffer = (st.sources i).buffer ∧
    ((Sound.get_volume ctx s st).st.sources i).buffer = (st.sources i).buffer ∧
    ((Sound.set_min_volume ctx s st v).st.sources i).buffer = (st.sources i).buffer ∧
    ((Sound.get_min_volume ctx s st).st.sources i).buffer = (st.sources i).buffer ∧
    ((Sound.set_max_volume ctx s st v).st.sources i).buffer = (st.sources i).buffer ∧
    ((Sound.get_max_volume ctx s st).st.sources i).buffer = (st.sources i).buffer ∧
    ((Sound.set_looping ctx s st b).st.sources i).buffer = (st.sources i).buffer ∧
    ((Sound.is_looping ctx s st).st.sources i).buffer = (st.sources i).buffer ∧
    ((Sound.set_pitch ctx s st v).st.sources i).buffer = (st.sources i).buffer ∧
    ((Sound.get_pitch ctx s st).st.sources i).buffer = (st.sources i).buffer ∧
    ((Sound.set_relative ctx s st b).st.sources i).buffer = (st.sources i).buffer ∧
    ((Sound.is_relative ctx s st).st.sources i).buffer = (st.sources i).buffer ∧
    ((Sound.set_position ctx s st p).st.sources i).buffer = (st.sources i).buffer ∧
    ((Sound.get_position ctx s st).st.sources i).buffer = (st.sources i).buffer ∧
    ((Sound.set_direction ctx s st p).st.sources i).buffer = (st.sources i).buffer ∧
    ((Sound.get_direction ctx s st).st.sources i).buffer = (st.sources i).buffer ∧
    ((Sound.set_max_distance ctx s st v).st.sources i).buffer = (st.sources i).buffer ∧
    ((Sound.get_max_distance ctx s st).st.sources i).buffer = (st.sources i).buffer ∧
    ((Sound.set_reference_distance ctx s st v).st.sources i).buffer
      = (st.sources i).buffer ∧
    ((Sound.get_reference_distance ctx s st).st.sources i).buffer
      = (st.sources i).buffer ∧
    ((Sound.set_attenuation ctx s st v).st.sources i).buffer = (st.sources i).buffer ∧
    ((Sound.get_attenuation ctx s st).st.sources i).buffer = (st.sources i).buffer ∧
    ((Sound.drop s st).st.sources i).buffer = (st.sources i).buffer := by
  constructor
  · intro sd2 st2 h
    refine ⟨⟨st2.nextId, sd2⟩, ?_, rfl, rfl, ?_⟩ <;>
      simp [Sound.new_with_data, ctxOk, openal_has_error, alGenSources, alSourcei,
        setSrc, h, SoundData.get_buffer]
  · cases ctx <;> cases herr : st.err <;> cases b <;> by_cases hi : i = s.al_source <;>
      simp [Sound.play, Sound.pause, Sound.stop, Sound.get_state, Sound.is_playing,
        Sound.set_volume, Sound.get_volume, Sound.set_min_volume, Sound.get_min_volume,
        Sound.set_max_volume, Sound.get_max_volume, Sound.set_looping, Sound.is_looping,
        Sound.set_pitch, Sound.get_pitch, Sound.set_relative, Sound.is_relative,
        Sound.set_position, Sound.get_position, Sound.set_direction, Sound.get_direction,
        Sound.set_max_distance, Sound.get_max_distance, Sound.set_reference_distance,
        Sound.get_reference_distance, Sound.set_attenuation, Sound.get_attenuation,
        Sound.get_datas, Sound.drop, openal_has_error, alSourcePlay, alSourcePause,
        alSourceStop, alDeleteSources, alSourcei, alSourcef, alSourcefv, setSrc,
        herr, hi, apply_ite ALSource.buffer]

/-- Claim C9, witness: constructing from the concrete buffer sd0 in the
error-free backend state yields a Sound holding sd0, with sd0 bound to its
source handle. -/
theorem buffer_binding_stable_witness :
    ∃ snd, (Sound.new_with_data ctxOk sd0 st0).res = some snd ∧
      snd.sound_data = sd0 ∧
      (Sound.get_datas snd st0).res = sd0 ∧
      ((Sound.new_with_data ctxOk sd0 st0).st.sources snd.al_source).buffer
        = i32cast (Int.ofNat sd0.get_buffer) :=
  (buffer_binding_stable ctxOk s0 st0 0 true V3.zero 0).1 sd0 st0 rfl

/-- Claim C10: when construction from a shared buffer finds a pending
backend error after generating and binding the source handle, it returns no
value, never emits a handle release, and leaves the freshly generated handle
allocated and live (teardown only runs for a constructed Sound). -/
theorem error_path_leaks_handle (sd : SoundData) (st : ALState) (e : String)
    (h : st.err = some e) :
    (Sound.new_with_data ctxOk sd st).res = none ∧
    Event.alCall "alGenSources" ∈ (Sound.new_with_data ctxOk sd st).events ∧
    Event.alCall "alDeleteSources" ∉ (Sound.new_with_data ctxOk sd st).events ∧
    (Sound.new_with_data ctxOk sd st).st.nextId = st.nextId + 1 ∧
    (Sound.new_with_data ctxOk sd st).st.live st.nextId = true := by
  simp [Sound.new_with_data, ctxOk, openal_has_error, alGenSources, alSourcei, setSrc, h]

/-- Claim C10, witness: with the concrete pending-error state, construction
returns no value and never releases the generated handle, which stays
live. -/
theorem error_path_leaks_handle_witness :
    stErr.err = some "backend error" ∧
    (Sound.new_with_data ctxOk sd0 stErr).res = none ∧
    Event.alCall "alDeleteSources" ∉ (Sound.new_with_data ctxOk sd0 stErr).events ∧
    (Sound.new_with_data ctxOk sd0 stErr).st.live stErr.nextId = true :=
  ⟨rfl, (error_path_leaks_handle sd0 stErr "backend error" rfl).1,
    (error_path_leaks_handle sd0 stErr "backend error" rfl).2.2.1,
    (error_path_leaks_handle sd0 stErr "backend error" rfl).2.2.2.2⟩

end Ears
